import Mathlib

/-!
# BotEyes — verification of the animation/rendering engine

Shallow embedding of the BotEyes Rust library (`src/lib.rs`, `src/types/mod.rs`,
`src/draw/mod.rs`, `src/animation/mod.rs`).

Machine integers are modelled as `Nat` (u32/u64) and `Int` (i32), with the
`as`-cast saturation/wrapping made explicit where the code crosses types.
The library performs its tweening arithmetic in `f32` on integer inputs and
immediately truncates back to an integer; since every value that ever reaches
an `f32` here is an integer of magnitude < 2^64, the `f32` computation is
modelled exactly by `f32roundNat` / `f32roundInt`: round-to-nearest-even onto
the 24-bit-significand grid.  Randomness (`rand::thread_rng().gen_range`) is
modelled by an explicit oracle `Nat → Nat`; each call site reduces the oracle
value into the requested range, and an empty range — which makes `gen_range`
panic in Rust — is modelled as `none`.
-/

namespace BotEyes

set_option maxRecDepth 40000

/-- Truncating division by 2, as Rust's `/ 2` on `i32` (rounds toward zero). -/
def tdiv2 (z : Int) : Int :=
  if 0 ≤ z then ((z.toNat / 2 : Nat) : Int) else -(((-z).toNat / 2 : Nat) : Int)

/-- Structural-fuel floor-log2 (the fuel 64 covers every value < 2^64);
used to find the binade, i.e. the f32 exponent, of an integer. -/
def log2fuel : Nat → Nat → Nat
  | 0, _ => 0
  | fuel + 1, n => if n ≤ 1 then 0 else log2fuel fuel (n / 2) + 1

/-- Floor of log2 for the integers handled by the engine (all < 2^64). -/
def natLog2 (n : Nat) : Nat := log2fuel 64 n

/-- Round `n` to the nearest multiple of `u`, ties to the even multiple
(IEEE-754 round-to-nearest-even restricted to one binade's grid). -/
def roundEvenMul (u n : Nat) : Nat :=
  let q := n / u
  let r := n % u
  if 2 * r < u then u * q
  else if u < 2 * r then u * (q + 1)
  else if q % 2 = 0 then u * q else u * (q + 1)

/-- The value of `(n as f32)` for a natural number `n < 2^64`: integers up to
2^24 are exact; above that the grid spacing is `2^(⌊log2 n⌋ - 23)`. -/
def f32roundNat (n : Nat) : Nat :=
  if n ≤ 16777216 then n else roundEvenMul (2 ^ (natLog2 n - 23)) n

/-- The value of `(z as f32)` for an integer `z` with `|z| < 2^64`. -/
def f32roundInt (z : Int) : Int :=
  if 0 ≤ z then (f32roundNat z.toNat : Int) else -(f32roundNat (-z).toNat : Int)

/-- Saturation of `f as u32` for a non-negative value (Rust `as` saturates). -/
def satU32 (n : Nat) : Nat :=
  if n ≤ 4294967295 then n else 4294967295

/-- Saturation of `f as i32` (Rust `as` from float saturates at the bounds). -/
def satI32 (z : Int) : Int :=
  if z < -2147483648 then -2147483648
  else if 2147483647 < z then 2147483647
  else z

/-- Two's-complement wrap into i32 range (Rust release-mode overflow). -/
def wrapI32 (z : Int) : Int :=
  (z + 2147483648) % 4294967296 - 2147483648

/-- The value of `(n as i32)` for a `u32` value `n` (reinterpret / wrap). -/
def i32ofU32 (n : Nat) : Int := wrapI32 (n : Int)

/-- One position-tween step, from `tween_positions`:
`(current as f32 + next as f32) as i32 / 2`. -/
def tweenStep (current target : Int) : Int :=
  tdiv2 (satI32 (f32roundInt (f32roundInt current + f32roundInt target)))

/-- One `u32` tween step, `(a as f32 + b as f32) as u32 / 2`
(used for the inter-eye spacing, the eyelid heights and, with `a = b`,
the border radius). -/
def tween2u (current target : Nat) : Nat :=
  satU32 (f32roundNat (f32roundNat current + f32roundNat target)) / 2

/-- The eye-height tween step,
`(cur as f32 + next as f32 + offset as f32) as u32 / 2` (`draw_into`). -/
def tween3u (current target offset : Nat) : Nat :=
  satU32 (f32roundNat (f32roundNat (f32roundNat current + f32roundNat target)
    + f32roundNat offset)) / 2

/-- `rng.gen_range(lo..hi)` on `i32`: panics (`none`) on an empty range,
otherwise the oracle value `v` reduced into `[lo, hi)`. -/
def genR (v : Nat) (lo hi : Int) : Option Int :=
  if hi ≤ lo then none else some (lo + (v : Int) % (hi - lo))

/-- `rng.gen_range(lo..=hi)` on `i32`: panics (`none`) on an empty range,
otherwise the oracle value `v` reduced into `[lo, hi]`. -/
def genRI (v : Nat) (lo hi : Int) : Option Int :=
  if hi < lo then none else some (lo + (v : Int) % (hi - lo + 1))

/-- `rng.gen_range(0..n)` on `u64`: panics (`none`) when `n = 0`. -/
def genRN (v n : Nat) : Option Nat :=
  if n = 0 then none else some (v % n)

/-- Truncation of a rational toward zero, the value of a `f32 as i32` /
`f32 as u32` cast on the sweat-drop floats. -/
def ratTrunc (q : ℚ) : Int :=
  if 0 ≤ q then ⌊q⌋ else ⌈q⌉

/-- Mood types for eye expressions (`types/mod.rs`). -/
inductive Mood where
  | Default
  | Tired
  | Angry
  | Happy
deriving DecidableEq, Repr, Inhabited

/-- Predefined eye positions / gaze directions (`types/mod.rs`). -/
inductive Position where
  | North
  | NorthEast
  | East
  | SouthEast
  | South
  | SouthWest
  | West
  | NorthWest
  | Center
deriving DecidableEq, Repr, Inhabited

/-- Eye geometry: width, height, corner radius, all `u32` (`types/mod.rs`). -/
structure EyeGeometry where
  width : Nat
  height : Nat
  border_radius : Nat
deriving DecidableEq, Repr, Inhabited

/-- `EyeGeometry::new`. -/
def EyeGeometry.new (width height border_radius : Nat) : EyeGeometry :=
  { width := width, height := height, border_radius := border_radius }

/-- Auto-blink configuration, `u64` seconds (`types/mod.rs`). -/
structure BlinkConfig where
  interval : Nat
  variation : Nat
deriving DecidableEq, Repr, Inhabited

/-- `BlinkConfig::default()`: interval 1 s, variation 4 s. -/
def BlinkConfig.mkDefault : BlinkConfig := { interval := 1, variation := 4 }

/-- Idle-drift configuration (`types/mod.rs`). -/
structure IdleConfig where
  interval : Nat
  variation : Nat
  x_range : Nat
  y_range : Nat
deriving DecidableEq, Repr, Inhabited

/-- `IdleConfig::default()`: interval 1 s, variation 3 s, full ranges. -/
def IdleConfig.mkDefault : IdleConfig :=
  { interval := 1, variation := 3, x_range := 100, y_range := 100 }

/-- Screen constraint helper (`types/mod.rs`). -/
structure ScreenConstraints where
  width : Nat
  height : Nat
deriving DecidableEq, Repr, Inhabited

/-- `ScreenConstraints::max_x`: maximum x position for the left eye,
`width as i32 - eye_width as i32 - space_between as i32 - right_eye_width as i32`. -/
def ScreenConstraints.max_x (c : ScreenConstraints)
    (eye_width space_between right_eye_width : Nat) : Int :=
  wrapI32 (wrapI32 (wrapI32 (i32ofU32 c.width - i32ofU32 eye_width)
    - i32ofU32 space_between) - i32ofU32 right_eye_width)

/-- `ScreenConstraints::max_y`: maximum y position for the left eye,
`height as i32 - eye_height as i32`. -/
def ScreenConstraints.max_y (c : ScreenConstraints) (eye_height : Nat) : Int :=
  wrapI32 (i32ofU32 c.height - i32ofU32 eye_height)

/-- Position of a sweat drop on the forehead (`animation/mod.rs`). -/
inductive SweatPosition where
  | Left
  | Center
  | Right
deriving DecidableEq, Repr, Inhabited

/-- State of one sweat drop (`animation/mod.rs`).  The `f32` fields are
modelled as rationals; the per-step increments 0.5 are `f32`-exact, the
0.1-decrement of the width is modelled by the exact rational 1/10 (the only
place where the `f32` rounding of the source is not reproduced bit-for-bit;
no claim concerns the sweat subsystem). -/
structure SweatDrop where
  x_initial : Int
  x : ℚ
  y : ℚ
  y_max : Int
  width : ℚ
  height : ℚ
deriving DecidableEq, Repr, Inhabited

/-- `SweatDrop::new`: random anchor in the home third of the screen and a
random `y_max` in `[10, 20)`; the two oracle values stand for the two
`gen_range` draws.  `none` models the `gen_range` panic on an empty range
(possible for `Center` when `screen_width ≤ 60`). -/
def SweatDrop.new (screen_width : Nat) (position : SweatPosition)
    (v1 v2 : Nat) : Option SweatDrop :=
  let w32 := i32ofU32 screen_width
  let anchor : Option Int :=
    match position with
    | .Left => genR v1 0 30
    | .Center => genR v1 30 (wrapI32 (w32 - 30))
    | .Right => (genR v1 0 30).map fun r => wrapI32 (wrapI32 (w32 - 30) + r)
  anchor.bind fun x_initial =>
  (genR v2 10 20).map fun y_max =>
  { x_initial := x_initial, x := (x_initial : ℚ), y := 2,
    y_max := y_max, width := 1, height := 2 }

/-- `SweatDrop::update`: advance the fall, grow in the first half and shrink
in the second half of the travel, re-center on the anchor; returns the
updated drop and whether it needs a reset. -/
def SweatDrop.update (d : SweatDrop) : SweatDrop × Bool :=
  let (y, should_reset) :=
    if ratTrunc d.y ≤ d.y_max then (d.y + 1/2, false) else (d.y, true)
  let (width, height) :=
    if ratTrunc y ≤ tdiv2 d.y_max then (d.width + 1/2, d.height + 1/2)
    else if tdiv2 d.y_max < ratTrunc y then (d.width - 1/10, d.height - 1/2)
    else (d.width, d.height)
  let x := (d.x_initial : ℚ) - width / 2
  ({ d with x := x, y := y, width := width, height := height }, should_reset)

/-- `SweatDrop::params`: the `(x, y, w, h)` drawing parameters, truncated
from `f32` as in the source (`as i32` / `as u32`). -/
def SweatDrop.params (d : SweatDrop) : Int × Int × Nat × Nat :=
  (satI32 (ratTrunc d.x), satI32 (ratTrunc d.y),
   satU32 (ratTrunc d.width).toNat, satU32 (ratTrunc d.height).toNat)

/-- The three sweat drops (`animation/mod.rs`). -/
structure SweatDrops where
  d0 : SweatDrop
  d1 : SweatDrop
  d2 : SweatDrop
deriving DecidableEq, Repr, Inhabited

/-- `SweatDrops::new`: three freshly seeded drops (left/center/right);
each uses two oracle values. -/
def SweatDrops.new (screen_width : Nat) (o : Nat → Nat) : Option SweatDrops :=
  (SweatDrop.new screen_width .Left (o 1) (o 2)).bind fun d0 =>
  (SweatDrop.new screen_width .Center (o 3) (o 4)).bind fun d1 =>
  (SweatDrop.new screen_width .Right (o 5) (o 6)).map fun d2 =>
  { d0 := d0, d1 := d1, d2 := d2 }

/-- The full engine state (`struct RoboEyes` in `src/lib.rs`).  Display
coordinates are `i32` (`Int`), sizes/heights/times are `u32`/`u64` (`Nat`). -/
structure RoboEyes where
  screen_width : Nat
  screen_height : Nat
  current_time : Nat
  mood : Mood
  eye_l : EyeGeometry
  eye_r : EyeGeometry
  eye_l_x : Int
  eye_l_y : Int
  eye_l_x_next : Int
  eye_l_y_next : Int
  eye_r_x : Int
  eye_r_y : Int
  eye_r_x_next : Int
  eye_r_y_next : Int
  eye_l_height_default : Nat
  eye_l_height_current : Nat
  eye_l_height_next : Nat
  eye_r_height_default : Nat
  eye_r_height_current : Nat
  eye_r_height_next : Nat
  eye_l_height_offset : Nat
  eye_r_height_offset : Nat
  space_between : Nat
  space_between_next : Nat
  eyelids_tired_height : Nat
  eyelids_tired_height_next : Nat
  eyelids_angry_height : Nat
  eyelids_angry_height_next : Nat
  eyelids_happy_bottom_offset : Nat
  eyelids_happy_bottom_offset_next : Nat
  eye_l_open : Bool
  eye_r_open : Bool
  cyclops : Bool
  curious : Bool
  sweat : Bool
  autoblinker : Bool
  blink_config : BlinkConfig
  blink_timer : Nat
  idle : Bool
  idle_config : IdleConfig
  idle_timer : Nat
  h_flicker : Bool
  h_flicker_amplitude : Nat
  h_flicker_alternate : Bool
  v_flicker : Bool
  v_flicker_amplitude : Nat
  v_flicker_alternate : Bool
  confused : Bool
  confused_timer : Nat
  confused_duration : Nat
  confused_toggle : Bool
  laugh : Bool
  laugh_timer : Nat
  laugh_duration : Nat
  laugh_toggle : Bool
  sweat_drops : SweatDrops
deriving DecidableEq, Repr, Inhabited

namespace RoboEyes

/-- `RoboEyes::new(screen_width, screen_height)`.  The constructor draws one
random `idle_timer` (`gen_range(0..u64::MAX)`, oracle slot 0) and seeds the
three sweat drops (oracle slots 1–6); `none` models a sweat-drop seeding
panic (screens of width ≤ 60). -/
def new (screen_width screen_height : Nat) (o : Nat → Nat) : Option RoboEyes :=
  (SweatDrops.new screen_width o).map fun sweat_drops =>
  let default_width : Nat := 36
  let default_height : Nat := 36
  let default_border_radius : Nat := 8
  let default_space : Nat := 10
  let eye_l_x := tdiv2 (wrapI32 (wrapI32 (wrapI32 (i32ofU32 screen_width
    - i32ofU32 default_width) - i32ofU32 default_space) - i32ofU32 default_width))
  let eye_l_y := tdiv2 (wrapI32 (i32ofU32 screen_height - i32ofU32 default_height))
  { screen_width := screen_width
    screen_height := screen_height
    current_time := 0
    mood := .Default
    eye_l := EyeGeometry.new default_width default_height default_border_radius
    eye_r := EyeGeometry.new default_width default_height default_border_radius
    eye_l_x := eye_l_x
    eye_l_y := eye_l_y
    eye_l_x_next := eye_l_x
    eye_l_y_next := eye_l_y
    eye_r_x := 0
    eye_r_y := eye_l_y
    eye_r_x_next := 0
    eye_r_y_next := eye_l_y
    eye_l_height_default := default_height
    eye_l_height_current := 1
    eye_l_height_next := default_height
    eye_r_height_default := default_height
    eye_r_height_current := 1
    eye_r_height_next := default_height
    eye_l_height_offset := 0
    eye_r_height_offset := 0
    space_between := default_space
    space_between_next := default_space
    eyelids_tired_height := 0
    eyelids_tired_height_next := 0
    eyelids_angry_height := 0
    eyelids_angry_height_next := 0
    eyelids_happy_bottom_offset := 0
    eyelids_happy_bottom_offset_next := 0
    eye_l_open := false
    eye_r_open := false
    cyclops := false
    curious := false
    sweat := false
    autoblinker := false
    blink_config := BlinkConfig.mkDefault
    blink_timer := 0
    idle := false
    idle_config := IdleConfig.mkDefault
    idle_timer := o 0 % 18446744073709551615
    h_flicker := false
    h_flicker_amplitude := 2
    h_flicker_alternate := false
    v_flicker := false
    v_flicker_amplitude := 10
    v_flicker_alternate := false
    confused := false
    confused_timer := 0
    confused_duration := 500
    confused_toggle := true
    laugh := false
    laugh_timer := 0
    laugh_duration := 500
    laugh_toggle := true
    sweat_drops := sweat_drops }

/-- `set_mood`. -/
def set_mood (e : RoboEyes) (mood : Mood) : RoboEyes := { e with mood := mood }

/-- `set_size(width, height)`: both eyes' geometric size, both height
defaults and both height targets. -/
def set_size (e : RoboEyes) (width height : Nat) : RoboEyes :=
  { e with
    eye_l := { e.eye_l with width := width, height := height }
    eye_r := { e.eye_r with width := width, height := height }
    eye_l_height_default := height
    eye_r_height_default := height
    eye_l_height_next := height
    eye_r_height_next := height }

/-- `set_border_radius(left, right)`. -/
def set_border_radius (e : RoboEyes) (left right : Nat) : RoboEyes :=
  { e with
    eye_l := { e.eye_l with border_radius := left }
    eye_r := { e.eye_r with border_radius := right } }

/-- `set_space_between`. -/
def set_space_between (e : RoboEyes) (space : Nat) : RoboEyes :=
  { e with space_between := space, space_between_next := space }

/-- `get_constraint_x`: maximum x of the left eye,
`screen_width as i32 - eye_l.width as i32 - space_between as i32 - eye_r.width as i32`. -/
def get_constraint_x (e : RoboEyes) : Int :=
  wrapI32 (wrapI32 (wrapI32 (i32ofU32 e.screen_width - i32ofU32 e.eye_l.width)
    - i32ofU32 e.space_between) - i32ofU32 e.eye_r.width)

/-- `set_position`: map a gaze direction to the left eye's target corner of
the movement envelope. -/
def set_position (e : RoboEyes) (position : Position) : RoboEyes :=
  let constraints : ScreenConstraints :=
    { width := e.screen_width, height := e.screen_height }
  let max_x := constraints.max_x e.eye_l.width e.space_between e.eye_r.width
  let max_y := constraints.max_y e.eye_l.height
  match position with
  | .North => { e with eye_l_x_next := tdiv2 max_x, eye_l_y_next := 0 }
  | .NorthEast => { e with eye_l_x_next := max_x, eye_l_y_next := 0 }
  | .East => { e with eye_l_x_next := max_x, eye_l_y_next := tdiv2 max_y }
  | .SouthEast => { e with eye_l_x_next := max_x, eye_l_y_next := max_y }
  | .South => { e with eye_l_x_next := tdiv2 max_x, eye_l_y_next := max_y }
  | .SouthWest => { e with eye_l_x_next := 0, eye_l_y_next := max_y }
  | .West => { e with eye_l_x_next := 0, eye_l_y_next := tdiv2 max_y }
  | .NorthWest => { e with eye_l_x_next := 0, eye_l_y_next := 0 }
  | .Center => { e with eye_l_x_next := tdiv2 max_x, eye_l_y_next := tdiv2 max_y }

/-- `set_cyclops`. -/
def set_cyclops (e : RoboEyes) (enabled : Bool) : RoboEyes :=
  { e with cyclops := enabled }

/-- `set_curiosity`. -/
def set_curiosity (e : RoboEyes) (enabled : Bool) : RoboEyes :=
  { e with curious := enabled }

/-- `set_sweat`. -/
def set_sweat (e : RoboEyes) (enabled : Bool) : RoboEyes :=
  { e with sweat := enabled }

/-- `open()` in the source (`open` is a Lean keyword): open both eyes. -/
def openBoth (e : RoboEyes) : RoboEyes :=
  { e with eye_l_open := true, eye_r_open := true }

/-- `close()`: set both height targets to 1 (closed) and clear the open flags. -/
def close (e : RoboEyes) : RoboEyes :=
  { e with
    eye_l_height_next := 1
    eye_r_height_next := 1
    eye_l_open := false
    eye_r_open := false }

/-- `blink()`: `close()` then `open()`. -/
def blink (e : RoboEyes) : RoboEyes := openBoth (close e)

/-- `open_eyes(left, right)`. -/
def open_eyes (e : RoboEyes) (left right : Bool) : RoboEyes :=
  let e := if left then { e with eye_l_open := true } else e
  if right then { e with eye_r_open := true } else e

/-- `blink_eyes(left, right)`. -/
def blink_eyes (e : RoboEyes) (left right : Bool) : RoboEyes :=
  let e := if left then
    { e with eye_l_height_next := 1, eye_l_open := false } else e
  let e := if right then
    { e with eye_r_height_next := 1, eye_r_open := false } else e
  open_eyes e left right

/-- `anim_confused()`: start (or restart) the confused pulse. -/
def anim_confused (e : RoboEyes) : RoboEyes :=
  { e with confused := true, confused_toggle := true }

/-- `anim_laugh()`: start (or restart) the laugh pulse. -/
def anim_laugh (e : RoboEyes) : RoboEyes :=
  { e with laugh := true, laugh_toggle := true }

/-- `set_autoblinker(enabled, interval, variation)`. -/
def set_autoblinker (e : RoboEyes) (enabled : Bool) (interval variation : Nat) :
    RoboEyes :=
  { e with
    autoblinker := enabled
    blink_config := { interval := interval, variation := variation } }

/-- `set_idle_mode(enabled, interval, variation)`. -/
def set_idle_mode (e : RoboEyes) (enabled : Bool) (interval variation : Nat) :
    RoboEyes :=
  { e with
    idle := enabled
    idle_config := { e.idle_config with interval := interval, variation := variation } }

/-- `set_h_flicker(enabled, amplitude)`. -/
def set_h_flicker (e : RoboEyes) (enabled : Bool) (amplitude : Nat) : RoboEyes :=
  { e with h_flicker := enabled, h_flicker_amplitude := amplitude }

/-- `set_v_flicker(enabled, amplitude)`. -/
def set_v_flicker (e : RoboEyes) (enabled : Bool) (amplitude : Nat) : RoboEyes :=
  { e with v_flicker := enabled, v_flicker_amplitude := amplitude }

/-- `update_curious_mode`: in curious mode an eye gets a +8 height offset
when its target x is within 10 px of the screen edge it faces. -/
def update_curious_mode (e : RoboEyes) : RoboEyes :=
  if e.curious then
    let left_offset := e.eye_l_x_next ≤ 10
      ∨ (wrapI32 (get_constraint_x e - 10) ≤ e.eye_l_x_next ∧ e.cyclops)
    let right_offset := wrapI32 (wrapI32 (i32ofU32 e.screen_width
      - i32ofU32 e.eye_r.width) - 10) ≤ e.eye_r_x_next
    { e with
      eye_l_height_offset := if left_offset then 8 else 0
      eye_r_height_offset := if right_offset then 8 else 0 }
  else
    { e with eye_l_height_offset := 0, eye_r_height_offset := 0 }

/-- `update_eye_heights`: shift y up by half the curious-mode offset. -/
def update_eye_heights (e : RoboEyes) : RoboEyes :=
  { e with
    eye_l_y := wrapI32 (e.eye_l_y - tdiv2 (i32ofU32 e.eye_l_height_offset))
    eye_r_y := wrapI32 (e.eye_r_y - tdiv2 (i32ofU32 e.eye_r_height_offset)) }

/-- The inline height-tween block of `draw_into` (lines 507–514):
`current = (current + next + offset) / 2` in `f32`, truncated to `u32`. -/
def tween_heights (e : RoboEyes) : RoboEyes :=
  { e with
    eye_l_height_current :=
      tween3u e.eye_l_height_current e.eye_l_height_next e.eye_l_height_offset
    eye_r_height_current :=
      tween3u e.eye_r_height_current e.eye_r_height_next e.eye_r_height_offset }

/-- The inline reopen rule of `draw_into` (lines 516–521): once an open eye's
current height has dropped to the closed threshold `1 + offset`, restore the
default height as the next target. -/
def reopen_rule (e : RoboEyes) : RoboEyes :=
  let e :=
    if e.eye_l_open ∧ e.eye_l_height_current ≤ 1 + e.eye_l_height_offset then
      { e with eye_l_height_next := e.eye_l_height_default } else e
  if e.eye_r_open ∧ e.eye_r_height_current ≤ 1 + e.eye_r_height_offset then
    { e with eye_r_height_next := e.eye_r_height_default } else e

/-- The inline spacing tween of `draw_into` (lines 523–524). -/
def tween_space (e : RoboEyes) : RoboEyes :=
  { e with space_between := tween2u e.space_between e.space_between_next }

/-- `tween_positions`: blend each eye's position toward its target; the right
eye's target is recomputed from the left eye's target each frame. -/
def tween_positions (e : RoboEyes) : RoboEyes :=
  let eye_l_x := tweenStep e.eye_l_x e.eye_l_x_next
  let eye_l_y := tweenStep e.eye_l_y e.eye_l_y_next
  let eye_r_x_next := wrapI32 (wrapI32 (e.eye_l_x_next + i32ofU32 e.eye_l.width)
    + i32ofU32 e.space_between)
  let eye_r_y_next := e.eye_l_y_next
  { e with
    eye_l_x := eye_l_x
    eye_l_y := eye_l_y
    eye_r_x_next := eye_r_x_next
    eye_r_y_next := eye_r_y_next
    eye_r_x := tweenStep e.eye_r_x eye_r_x_next
    eye_r_y := tweenStep e.eye_r_y eye_r_y_next }

/-- The border-radius "tween" of `draw_into` (lines 527–530): each radius is
blended with itself, `(r as f32 + r as f32) as u32 / 2`. -/
def tween_border_radius (e : RoboEyes) : RoboEyes :=
  { e with
    eye_l :=
      { e.eye_l with
        border_radius := tween2u e.eye_l.border_radius e.eye_l.border_radius }
    eye_r :=
      { e.eye_r with
        border_radius := tween2u e.eye_r.border_radius e.eye_r.border_radius } }

/-- `process_autoblinker`: when enabled and the deadline has passed, blink and
reschedule `blink_timer = now + interval*1000 + gen_range(0..variation)*1000`
(oracle slot 0); `none` models the `gen_range` panic when `variation = 0`. -/
def process_autoblinker (e : RoboEyes) (o : Nat → Nat) : Option RoboEyes :=
  if e.autoblinker ∧ e.blink_timer ≤ e.current_time then
    let e := e.blink
    (genRN (o 0) e.blink_config.variation).map fun r =>
      { e with blink_timer := e.current_time + e.blink_config.interval * 1000
        + r * 1000 }
  else some e

/-- `process_laugh`: two-phase pulse driving the vertical flicker. -/
def process_laugh (e : RoboEyes) : RoboEyes :=
  if e.laugh then
    if e.laugh_toggle then
      { e with
        v_flicker := true
        v_flicker_amplitude := 5
        laugh_timer := e.current_time
        laugh_toggle := false }
    else if e.laugh_timer + e.laugh_duration ≤ e.current_time then
      { e with
        v_flicker := false
        v_flicker_amplitude := 0
        laugh_toggle := true
        laugh := false }
    else e
  else e

/-- `process_confused`: two-phase pulse driving the horizontal flicker. -/
def process_confused (e : RoboEyes) : RoboEyes :=
  if e.confused then
    if e.confused_toggle then
      { e with
        h_flicker := true
        h_flicker_amplitude := 20
        confused_timer := e.current_time
        confused_toggle := false }
    else if e.confused_timer + e.confused_duration ≤ e.current_time then
      { e with
        h_flicker := false
        h_flicker_amplitude := 0
        confused_toggle := true
        confused := false }
    else e
  else e

/-- `process_idle`: when the idle deadline passes, pick random next positions
(`gen_range(0..=get_constraint_x())` for both axes — note the y axis also
uses the x constraint, oracle slots 1 and 2) and reschedule (slot 3).
`none` models the `gen_range` panics (negative constraint or `variation = 0`). -/
def process_idle (e : RoboEyes) (o : Nat → Nat) : Option RoboEyes :=
  if e.idle ∧ e.idle_timer ≤ e.current_time then
    (genRI (o 1) 0 (get_constraint_x e)).bind fun xr =>
    (genRI (o 2) 0 (get_constraint_x e)).bind fun yr =>
    (genRN (o 3) e.idle_config.variation).map fun vr =>
      { e with
        eye_l_x_next := xr
        eye_l_y_next := yr
        idle_timer := e.current_time + e.idle_config.interval * 1000
          + vr * 1000 }
  else some e

/-- `apply_flicker`: add ± amplitude to the eye positions, alternating the
sign every frame. -/
def apply_flicker (e : RoboEyes) : RoboEyes :=
  let e :=
    if e.h_flicker then
      let a := i32ofU32 e.h_flicker_amplitude
      let e :=
        if e.h_flicker_alternate then
          { e with eye_l_x := wrapI32 (e.eye_l_x + a)
                   eye_r_x := wrapI32 (e.eye_r_x + a) }
        else
          { e with eye_l_x := wrapI32 (e.eye_l_x - a)
                   eye_r_x := wrapI32 (e.eye_r_x - a) }
      { e with h_flicker_alternate := !e.h_flicker_alternate }
    else e
  if e.v_flicker then
    let a := i32ofU32 e.v_flicker_amplitude
    let e :=
      if e.v_flicker_alternate then
        { e with eye_l_y := wrapI32 (e.eye_l_y + a)
                 eye_r_y := wrapI32 (e.eye_r_y + a) }
      else
        { e with eye_l_y := wrapI32 (e.eye_l_y - a)
                 eye_r_y := wrapI32 (e.eye_r_y - a) }
    { e with v_flicker_alternate := !e.v_flicker_alternate }
  else e

/-- The cyclops block of `draw_into` (lines 539–543): zero the right eye's
current height, its width and the spacing. -/
def apply_cyclops (e : RoboEyes) : RoboEyes :=
  if e.cyclops then
    { e with
      eye_r_height_current := 0
      eye_r := { e.eye_r with width := 0 }
      space_between := 0 }
  else e

/-- `update_mood_transitions`: set the eyelid targets for the active mood and
advance the three eyelid tweens one step. -/
def update_mood_transitions (e : RoboEyes) : RoboEyes :=
  let e :=
    match e.mood with
    | .Tired =>
        { e with
          eyelids_tired_height_next := e.eye_l_height_default / 2
          eyelids_angry_height_next := 0 }
    | .Angry =>
        { e with
          eyelids_angry_height_next := e.eye_l_height_default / 2
          eyelids_tired_height_next := 0 }
    | .Happy =>
        { e with
          eyelids_happy_bottom_offset_next := e.eye_l_height_default / 2 }
    | .Default =>
        { e with
          eyelids_tired_height_next := 0
          eyelids_angry_height_next := 0
          eyelids_happy_bottom_offset_next := 0 }
  { e with
    eyelids_tired_height :=
      tween2u e.eyelids_tired_height e.eyelids_tired_height_next
    eyelids_angry_height :=
      tween2u e.eyelids_angry_height e.eyelids_angry_height_next
    eyelids_happy_bottom_offset :=
      tween2u e.eyelids_happy_bottom_offset e.eyelids_happy_bottom_offset_next }

/-- One sweat drop's share of `draw_sweat`: update it, and reseed it (two
oracle values) when the update reports that it finished its fall. -/
def sweat_drop_step (screen_width : Nat) (pos : SweatPosition) (d : SweatDrop)
    (v1 v2 : Nat) : Option SweatDrop :=
  let (d', needs_reset) := d.update
  if needs_reset then SweatDrop.new screen_width pos v1 v2 else some d'

/-- The state effect of `draw_sweat`: update all three drops and reseed the
finished ones (oracle slots 4–9).  The pixel writes are not part of the
state model. -/
def draw_sweat_state (e : RoboEyes) (o : Nat → Nat) : Option RoboEyes :=
  (sweat_drop_step e.screen_width .Left e.sweat_drops.d0 (o 4) (o 5)).bind fun d0 =>
  (sweat_drop_step e.screen_width .Center e.sweat_drops.d1 (o 6) (o 7)).bind fun d1 =>
  (sweat_drop_step e.screen_width .Right e.sweat_drops.d2 (o 8) (o 9)).map fun d2 =>
  { e with sweat_drops := { d0 := d0, d1 := d1, d2 := d2 } }

/-- The engine-state effect of one `draw_into(img, current_time)` call, in the
exact order of the source: record the time, curious-mode offsets, height /
spacing / position / border-radius tweens, the four schedulers, flicker,
the cyclops block, the mood-transition update, and the sweat update.
The pixel output is modelled separately by the `draw` primitives below.
`none` models a panic inside one of the `gen_range` calls. -/
def drawStep (e : RoboEyes) (current_time : Nat) (o : Nat → Nat) :
    Option RoboEyes :=
  let e := { e with current_time := current_time }
  let e := update_curious_mode e
  let e := update_eye_heights e
  let e := tween_heights e
  let e := reopen_rule e
  let e := tween_space e
  let e := tween_positions e
  let e := tween_border_radius e
  (process_autoblinker e o).bind fun e =>
  let e := process_laugh e
  let e := process_confused e
  (process_idle e o).bind fun e =>
  let e := apply_flicker e
  let e := apply_cyclops e
  let e := update_mood_transitions e
  if e.sweat then draw_sweat_state e o else some e

/-- Fold `drawStep` over a list of frame timestamps. -/
def drawSeq (e : RoboEyes) (ts : List Nat) (o : Nat → Nat) : Option RoboEyes :=
  ts.foldl (fun acc t => acc.bind fun s => drawStep s t o) (some e)

end RoboEyes

/-- The inclusive integer range `lo..=max` as a list (empty when `hi < lo`). -/
def rangeI (lo hi : Int) : List Int :=
  (List.range (hi + 1 - lo).toNat).map fun (k : Nat) => lo + (k : Int)

/-- `is_in_rounded_corner` (`draw/mod.rs`): whether the pixel at offset
`(dx, dy)` inside a `width × height` box falls outside one of the four
rounding circles of radius `radius`. -/
def is_in_rounded_corner (dx dy : Int) (width height radius : Nat) : Bool :=
  let radius := i32ofU32 radius
  let width := i32ofU32 width
  let height := i32ofU32 height
  let rr := wrapI32 (radius * radius)
  if dx < radius ∧ dy < radius then
    let cx := wrapI32 (radius - dx)
    let cy := wrapI32 (radius - dy)
    decide (rr < wrapI32 (wrapI32 (cx * cx) + wrapI32 (cy * cy)))
  else if wrapI32 (width - radius) ≤ dx ∧ dy < radius then
    let cx := wrapI32 (dx - wrapI32 (width - radius))
    let cy := wrapI32 (radius - dy)
    decide (rr < wrapI32 (wrapI32 (cx * cx) + wrapI32 (cy * cy)))
  else if dx < radius ∧ wrapI32 (height - radius) ≤ dy then
    let cx := wrapI32 (radius - dx)
    let cy := wrapI32 (dy - wrapI32 (height - radius))
    decide (rr < wrapI32 (wrapI32 (cx * cx) + wrapI32 (cy * cy)))
  else if wrapI32 (width - radius) ≤ dx ∧ wrapI32 (height - radius) ≤ dy then
    let cx := wrapI32 (dx - wrapI32 (width - radius))
    let cy := wrapI32 (dy - wrapI32 (height - radius))
    decide (rr < wrapI32 (wrapI32 (cx * cx) + wrapI32 (cy * cy)))
  else false

/-- The pixels written by `draw_rounded_rect` (`draw/mod.rs`), in loop order.
The radius is first clamped to `min(radius, width/2, height/2)`; a candidate
pixel outside the canvas, or inside a rounded corner, is silently skipped. -/
def draw_rounded_rect_pixels (screen_width screen_height : Nat) (x y : Int)
    (width height radius : Nat) : List (Int × Int) :=
  let radius := min (min radius (width / 2)) (height / 2)
  (List.range (i32ofU32 height).toNat).flatMap fun dyn =>
    (List.range (i32ofU32 width).toNat).filterMap fun dxn =>
      let dx : Int := dxn
      let dy : Int := dyn
      let px := wrapI32 (x + dx)
      let py := wrapI32 (y + dy)
      if px < 0 ∨ i32ofU32 screen_width ≤ px
          ∨ py < 0 ∨ i32ofU32 screen_height ≤ py then none
      else if is_in_rounded_corner dx dy width height radius then none
      else some (px, py)

/-- The pixels written by `draw_triangle` (`draw/mod.rs`), in loop order: an
axis-aligned bounding box clamped to the canvas, then a barycentric
membership test relative to vertex 1.  The source computes the barycentric
weights in `f32`; they are modelled exactly in `ℚ` here — the clipping
behaviour (which pixels can be written at all) does not depend on the test. -/
def draw_triangle_pixels (screen_width screen_height : Nat)
    (x1 y1 x2 y2 x3 y3 : Int) : List (Int × Int) :=
  let min_x := max (min (min x1 x2) x3) 0
  let max_x := min (max (max x1 x2) x3) (wrapI32 (i32ofU32 screen_width - 1))
  let min_y := max (min (min y1 y2) y3) 0
  let max_y := min (max (max y1 y2) y3) (wrapI32 (i32ofU32 screen_height - 1))
  let edge1_x := wrapI32 (x2 - x1)
  let edge1_y := wrapI32 (y2 - y1)
  let edge2_x := wrapI32 (x3 - x1)
  let edge2_y := wrapI32 (y3 - y1)
  (rangeI min_y max_y).flatMap fun y =>
    (rangeI min_x max_x).filterMap fun x =>
      let px := wrapI32 (x - x1)
      let py := wrapI32 (y - y1)
      let det := wrapI32 (wrapI32 (edge1_x * edge2_y) - wrapI32 (edge2_x * edge1_y))
      if det = 0 then none
      else
        let u : ℚ := (wrapI32 (wrapI32 (px * edge2_y) - wrapI32 (py * edge2_x)) : ℚ)
          / (det : ℚ)
        let v : ℚ := (wrapI32 (wrapI32 (edge1_x * py) - wrapI32 (edge1_y * px)) : ℚ)
          / (det : ℚ)
        if 0 ≤ u ∧ 0 ≤ v ∧ u + v ≤ 1 then some (x, y) else none

/-- The all-zeros randomness oracle, used for the concrete test states. -/
def o0 : Nat → Nat := fun _ => 0

/-- The concrete default engine of the spec's scenarios:
`RoboEyes::new(128, 64)` with the all-zeros oracle. -/
def e0 : RoboEyes := (RoboEyes.new 128 64 o0).getD default

/-- `e0` after `open()` and ten rendered frames: the eye heights have
stabilized at 35 (= default 36 − 1, the blend's fixed point). -/
def eStab : RoboEyes :=
  (RoboEyes.drawSeq e0.openBoth [0, 1, 2, 3, 4, 5, 6, 7, 8, 9] o0).getD default

/-- `eStab` after `close()` and eight more frames: both heights have settled
at the closed height 1, with the open flags cleared. -/
def eClosed : RoboEyes :=
  (RoboEyes.drawSeq eStab.close [20, 21, 22, 23, 24, 25, 26, 27] o0).getD default

/-! ## Helper lemmas -/

theorem f32roundNat_small {n : Nat} (h : n ≤ 16777216) : f32roundNat n = n := by
  unfold f32roundNat
  rw [if_pos h]

theorem f32roundInt_small {z : Int} (h : z.natAbs ≤ 16777216) :
    f32roundInt z = z := by
  unfold f32roundInt
  split
  · rw [f32roundNat_small (by omega)]
    omega
  · rw [f32roundNat_small (by omega)]
    omega

theorem satI32_id {z : Int} (h1 : -2147483648 ≤ z) (h2 : z ≤ 2147483647) :
    satI32 z = z := by
  unfold satI32
  split_ifs <;> omega

/-- Division characterization of `tdiv2` (truncation toward zero). -/
theorem tdiv2_char (n : Int) :
    2 * tdiv2 n = n ∨ (2 * tdiv2 n = n - 1 ∧ 1 ≤ n)
      ∨ (2 * tdiv2 n = n + 1 ∧ n ≤ -1) := by
  unfold tdiv2
  split_ifs with h <;> omega

/-- In the f32-exact regime the position tween is plainly `(c + t) / 2`
truncated toward zero. -/
theorem tweenStep_small {c t : Int} (hc : c.natAbs ≤ 8388608)
    (ht : t.natAbs ≤ 8388608) : tweenStep c t = tdiv2 (c + t) := by
  unfold tweenStep
  rw [f32roundInt_small (show c.natAbs ≤ 16777216 by omega),
    f32roundInt_small (show t.natAbs ≤ 16777216 by omega),
    f32roundInt_small (show (c + t).natAbs ≤ 16777216 by omega),
    satI32_id (by omega) (by omega)]

theorem log2fuel_spec :
    ∀ fuel k n, k < fuel → 2 ^ k ≤ n → n < 2 ^ (k + 1) →
      log2fuel fuel n = k := by
  intro fuel
  induction fuel with
  | zero => omega
  | succ f ih =>
    intro k n hk h1 h2
    cases k with
    | zero =>
      have h1' : 1 ≤ n := by simpa using h1
      have h2' : n < 2 := by simpa using h2
      unfold log2fuel
      rw [if_pos (by omega)]
    | succ k' =>
      have hp : (2 : Nat) ^ 1 ≤ 2 ^ (k' + 1) :=
        Nat.pow_le_pow_right (by norm_num) (by omega)
      have hge : 2 ≤ n := by
        have : (2 : Nat) ^ 1 = 2 := by norm_num
        omega
      unfold log2fuel
      rw [if_neg (by omega)]
      have hdiv1 : 2 ^ k' ≤ n / 2 := by
        rw [Nat.le_div_iff_mul_le (by norm_num)]
        calc 2 ^ k' * 2 = 2 ^ (k' + 1) := (pow_succ 2 k').symm
        _ ≤ n := h1
      have hdiv2 : n / 2 < 2 ^ (k' + 1) := by
        rw [Nat.div_lt_iff_lt_mul (by norm_num)]
        calc n < 2 ^ (k' + 1 + 1) := h2
        _ = 2 ^ (k' + 1) * 2 := pow_succ 2 (k' + 1)
      rw [ih k' (n / 2) (by omega) hdiv1 hdiv2]

theorem roundEvenMul_exact {u n : Nat} (hu : 0 < u) (h : n % u = 0) :
    roundEvenMul u n = n := by
  unfold roundEvenMul
  rw [if_pos (by omega)]
  exact Nat.mul_div_cancel' (Nat.dvd_of_mod_eq_zero h)

/-- Every even number up to 2^25 is an exact `f32` value. -/
theorem f32roundNat_even {n : Nat} (he : n % 2 = 0) (h : n ≤ 33554432) :
    f32roundNat n = n := by
  by_cases h1 : n ≤ 16777216
  · exact f32roundNat_small h1
  · unfold f32roundNat
    rw [if_neg h1]
    by_cases h2 : n = 33554432
    · subst h2
      decide
    · have hpow24 : (2 : Nat) ^ 24 = 16777216 := by norm_num
      have hpow25 : (2 : Nat) ^ 25 = 33554432 := by norm_num
      have hl : natLog2 n = 24 := by
        unfold natLog2
        exact log2fuel_spec 64 24 n (by omega) (by omega) (by omega)
      rw [hl, show (24 - 23 : Nat) = 1 from rfl, pow_one]
      exact roundEvenMul_exact (by omega) he

theorem satU32_id {n : Nat} (h : n ≤ 4294967295) : satU32 n = n := by
  unfold satU32
  rw [if_pos h]

/-- A `u32` reinterpreted as `i32` never exceeds its unsigned value. -/
theorem i32ofU32_le (n : Nat) : i32ofU32 n ≤ (n : Int) := by
  unfold i32ofU32 wrapI32
  omega

/-- Membership in an inclusive integer range. -/
theorem mem_rangeI {lo hi z : Int} (hz : z ∈ rangeI lo hi) :
    lo ≤ z ∧ z ≤ hi := by
  unfold rangeI at hz
  rw [List.mem_map] at hz
  obtain ⟨k, hk, hzeq⟩ := hz
  rw [List.mem_range] at hk
  omega

/-- The clamp bound `screen as i32 - 1` used by the triangle's bounding box
stays below the unsigned screen size. -/
theorem wrap_pred_lt (n : Nat) : wrapI32 (i32ofU32 n - 1) < (n : Int) := by
  unfold i32ofU32 wrapI32
  omega

/-! ## Claim theorems -/

/-- C1 (amended): for a current value C and a constant target T whose
magnitudes stay within 2^23 — the regime in which the `f32` arithmetic of
`tween_positions` is exact — one blend step `current = (current + target) / 2`
moves the current value monotonically toward T: the absolute difference
strictly decreases while it is ≥ 2, the step never overshoots T, the region
`|current − T| ≤ 1` is absorbing and inside it the value either stays put (a
fixed point) or lands exactly on T, which is itself fixed.  (The original
claim quantified over all integers; `tween_step_f32_counterexample` shows it
fails once f32 rounding is no longer exact.) -/
theorem tween_step_converges (c t : Int) (hc : c.natAbs ≤ 8388608)
    (ht : t.natAbs ≤ 8388608) :
    (2 ≤ (c - t).natAbs → (tweenStep c t - t).natAbs < (c - t).natAbs)
    ∧ (0 ≤ c - t → 0 ≤ tweenStep c t - t)
    ∧ (c - t ≤ 0 → tweenStep c t - t ≤ 0)
    ∧ ((c - t).natAbs ≤ 1 → (tweenStep c t - t).natAbs ≤ 1)
    ∧ ((c - t).natAbs ≤ 1 → tweenStep c t = c ∨ tweenStep c t = t)
    ∧ (c = t → tweenStep c t = t) := by
  rw [tweenStep_small hc ht]
  have h := tdiv2_char (c + t)
  omega

/-- Witness for `tween_step_converges` at C = 10, T = 3. -/
theorem tween_step_converges_witness :
    (10 : Int).natAbs ≤ 8388608 ∧ (3 : Int).natAbs ≤ 8388608
    ∧ ((2 ≤ ((10 : Int) - 3).natAbs →
        (tweenStep 10 3 - 3).natAbs < ((10 : Int) - 3).natAbs)
      ∧ (0 ≤ (10 : Int) - 3 → 0 ≤ tweenStep 10 3 - 3)
      ∧ ((10 : Int) - 3 ≤ 0 → tweenStep 10 3 - 3 ≤ 0)
      ∧ (((10 : Int) - 3).natAbs ≤ 1 → (tweenStep 10 3 - 3).natAbs ≤ 1)
      ∧ (((10 : Int) - 3).natAbs ≤ 1 → tweenStep 10 3 = 10 ∨ tweenStep 10 3 = 3)
      ∧ ((10 : Int) = 3 → tweenStep 10 3 = 3)) :=
  ⟨by decide, by decide, tween_step_converges 10 3 (by decide) (by decide)⟩

/-- C1 counterexample: at C = 33554434, T = 33554436 (between 2^25 and 2^26,
where `f32` resolves only multiples of 4) the blend step moves the current
value from distance 2 to distance 4 — the absolute difference does not
strictly decrease, contradicting the claim over all integers. -/
theorem tween_step_f32_counterexample :
    ((33554434 : Int) - 33554436).natAbs = 2
    ∧ tweenStep 33554434 33554436 = 33554432
    ∧ (tweenStep 33554434 33554436 - 33554436).natAbs = 4 := by
  decide

/-- C2: the cyclops block of `draw_into` persistently zeroes the right eye's
width.  On the default 128×64 engine (configured right-eye width 36), one
render with cyclops enabled followed by `set_cyclops(false)` and another
render leaves `eye_r.width = 0` — the right eye is drawn with width 0, not
its previously configured width — even though the height and spacing
*targets* were never touched (still 36 and 10). -/
theorem cyclops_width_persists :
    e0.eye_r.width = 36
    ∧ (((RoboEyes.drawStep (RoboEyes.set_cyclops e0.openBoth true) 0 o0).bind
          fun s => RoboEyes.drawStep (RoboEyes.set_cyclops s false) 1 o0).map
        fun s => (s.eye_r.width, s.eye_r_height_next, s.space_between_next))
      = some (0, 36, 10) := by
  decide

/-- C3: with the auto-blinker enabled and `variation = 0`, the first render
whose timestamp reaches the blink deadline evaluates
`rng.gen_range(0..0)` — an empty range, which panics in Rust.  The render
fails (`none`) instead of blinking, on `set_autoblinker(true, 1, 0)` at
`current_time = 0`. -/
theorem autoblinker_zero_variation_panics :
    RoboEyes.drawStep (RoboEyes.set_autoblinker e0 true 1 0) 0 o0 = none := by
  decide

/-- C4: when the idle-drift timer fires, the y target is drawn from
`0..=get_constraint_x()` — the *horizontal* constraint — so on a 128×64
screen with default geometry the y target can be 46, far outside the
vertical envelope `[0, max_y] = [0, 28]`. -/
theorem idle_y_target_uses_x_constraint :
    ((RoboEyes.drawStep (RoboEyes.set_idle_mode e0 true 1 1) 0
        (fun _ => 46)).map fun s => (s.eye_l_x_next, s.eye_l_y_next))
      = some (46, 46)
    ∧ ScreenConstraints.max_x { width := 128, height := 64 } 36 10 36 = 46
    ∧ ScreenConstraints.max_y { width := 128, height := 64 } 36 = 28
    ∧ ¬((46 : Int) ≤ 28) := by
  decide

/-- C5: blink round-trip on the default 128×64 engine.  After `open()` the
heights stabilize at 35 (within 1 of the default 36).  Calling `blink()`
and rendering six frames drives both current heights down to the closed
threshold 1, at which point the default target 36 is restored; after
thirteen frames both heights are back at the pre-blink value 35, and one
more frame leaves them there. -/
theorem blink_round_trip :
    eStab.eye_l_height_current = 35 ∧ eStab.eye_r_height_current = 35
    ∧ eStab.eye_l_height_default = 36 ∧ eStab.eye_r_height_default = 36
    ∧ eStab.eye_l_height_default - eStab.eye_l_height_current ≤ 1
    ∧ ((RoboEyes.drawSeq eStab.blink [10, 11, 12, 13, 14, 15] o0).map fun s =>
        (s.eye_l_height_current, s.eye_r_height_current,
          s.eye_l_height_next, s.eye_r_height_next)) = some (1, 1, 36, 36)
    ∧ ((RoboEyes.drawSeq eStab.blink
          [10, 11, 12, 13, 14, 15, 16, 17, 18, 19, 20, 21, 22] o0).map fun s =>
        (s.eye_l_height_current, s.eye_r_height_current)) = some (35, 35)
    ∧ ((RoboEyes.drawSeq eStab.blink
          [10, 11, 12, 13, 14, 15, 16, 17, 18, 19, 20, 21, 22, 23] o0).map
        fun s => (s.eye_l_height_current, s.eye_r_height_current))
      = some (35, 35) := by
  decide

/-- C6 (amended): `update_mood_transitions` zeroes only *some* of the other
moods' eyelid targets.  Tired sets the tired target and zeroes the angry one
but leaves the happy target untouched; Angry sets the angry target and zeroes
the tired one but leaves the happy target untouched; Happy sets the happy
target and leaves both tired and angry targets untouched; only Default zeroes
all three. -/
theorem mood_transition_targets (e : RoboEyes) :
    (RoboEyes.update_mood_transitions e).eyelids_tired_height_next =
      (match e.mood with
        | Mood.Tired => e.eye_l_height_default / 2
        | Mood.Angry => 0
        | Mood.Happy => e.eyelids_tired_height_next
        | Mood.Default => 0)
    ∧ (RoboEyes.update_mood_transitions e).eyelids_angry_height_next =
      (match e.mood with
        | Mood.Tired => 0
        | Mood.Angry => e.eye_l_height_default / 2
        | Mood.Happy => e.eyelids_angry_height_next
        | Mood.Default => 0)
    ∧ (RoboEyes.update_mood_transitions e).eyelids_happy_bottom_offset_next =
      (match e.mood with
        | Mood.Tired => e.eyelids_happy_bottom_offset_next
        | Mood.Angry => e.eyelids_happy_bottom_offset_next
        | Mood.Happy => e.eye_l_height_default / 2
        | Mood.Default => 0) := by
  unfold RoboEyes.update_mood_transitions
  cases e.mood <;> exact ⟨rfl, rfl, rfl⟩

/-- C6 counterexample: render the default engine in mood Tired (the tired
target becomes 18), then switch to Happy and render again — the frame in
mood Happy leaves the tired-height target at 18 ≠ 0, so it is not true that
in mood Happy only the happy-bottom-offset target is non-zero. -/
theorem mood_happy_keeps_tired_target :
    (((RoboEyes.drawStep (RoboEyes.set_mood e0.openBoth Mood.Tired) 0 o0).bind
        fun s => RoboEyes.drawStep (RoboEyes.set_mood s Mood.Happy) 1 o0).map
      fun s => (s.mood, s.eyelids_tired_height_next)) = some (Mood.Happy, 18)
    ∧ (18 : Nat) ≠ 0 := by
  decide

/-- C7: both rasterization primitives only ever write pixels inside the
`screen_width × screen_height` canvas, for arbitrary (also negative or
out-of-range) shape coordinates; out-of-bounds candidates are skipped and
the functions are total. -/
theorem draw_primitives_clip_in_bounds :
    (∀ (sw sh : Nat) (x y : Int) (w h r : Nat) (p : Int × Int),
        p ∈ draw_rounded_rect_pixels sw sh x y w h r →
        0 ≤ p.1 ∧ p.1 < (sw : Int) ∧ 0 ≤ p.2 ∧ p.2 < (sh : Int))
    ∧ (∀ (sw sh : Nat) (x1 y1 x2 y2 x3 y3 : Int) (p : Int × Int),
        p ∈ draw_triangle_pixels sw sh x1 y1 x2 y2 x3 y3 →
        0 ≤ p.1 ∧ p.1 < (sw : Int) ∧ 0 ≤ p.2 ∧ p.2 < (sh : Int)) := by
  constructor
  · intro sw sh x y w h r p hp
    obtain ⟨p1, p2⟩ := p
    simp only [draw_rounded_rect_pixels, List.mem_flatMap, List.mem_filterMap,
      List.mem_range] at hp
    obtain ⟨dyn, _, dxn, _, hsome⟩ := hp
    have hsw := i32ofU32_le sw
    have hsh := i32ofU32_le sh
    split_ifs at hsome with h1 h2
    injection hsome with hpq
    injection hpq with hp1 hp2
    subst hp1
    subst hp2
    push_neg at h1
    obtain ⟨ha, hb, hc, hd⟩ := h1
    refine ⟨?_, ?_, ?_, ?_⟩ <;> dsimp only <;> omega
  · intro sw sh x1 y1 x2 y2 x3 y3 p hp
    obtain ⟨p1, p2⟩ := p
    dsimp only
    simp only [draw_triangle_pixels, List.mem_flatMap, List.mem_filterMap] at hp
    obtain ⟨yy, hyy, xx, hxx, hsome⟩ := hp
    have hxr := mem_rangeI hxx
    have hyr := mem_rangeI hyy
    clear hxx hyy
    split_ifs at hsome with h1 h2
    clear h1 h2
    injection hsome with hpq
    injection hpq with hp1 hp2
    subst hp1
    subst hp2
    have hbx := wrap_pred_lt sw
    have hby := wrap_pred_lt sh
    exact ⟨le_trans (le_max_right _ _) hxr.1,
      lt_of_le_of_lt (le_trans hxr.2 (min_le_right _ _)) hbx,
      le_trans (le_max_right _ _) hyr.1,
      lt_of_le_of_lt (le_trans hyr.2 (min_le_right _ _)) hby⟩

/-- Witness for `draw_primitives_clip_in_bounds`: the pixel (0, 0) written by
`draw_rounded_rect(…, x = 0, y = 0, w = 4, h = 4, radius = 0)` on a 128×64
canvas is in bounds. -/
theorem draw_primitives_clip_in_bounds_witness :
    ((0, 0) : Int × Int) ∈ draw_rounded_rect_pixels 128 64 0 0 4 4 0
    ∧ (0 ≤ (((0, 0) : Int × Int)).1 ∧ (((0, 0) : Int × Int)).1 < (128 : Int)
      ∧ 0 ≤ (((0, 0) : Int × Int)).2 ∧ (((0, 0) : Int × Int)).2 < (64 : Int)) :=
  ⟨by decide,
    draw_primitives_clip_in_bounds.1 128 64 0 0 4 4 0 (0, 0) (by decide)⟩

/-- C8 (amended): the border-radius step of `draw_into` blends each radius
with itself and is a genuine no-op pass-through for every radius up to
2^24 — in particular for every radius that can matter on a real screen.
(For larger radii the value is replaced by its nearest `f32`, see
`border_radius_large_not_noop`.) -/
theorem border_radius_tween_noop (e : RoboEyes)
    (hl : e.eye_l.border_radius ≤ 16777216)
    (hr : e.eye_r.border_radius ≤ 16777216) :
    (RoboEyes.tween_border_radius e).eye_l.border_radius = e.eye_l.border_radius
    ∧ (RoboEyes.tween_border_radius e).eye_r.border_radius
      = e.eye_r.border_radius := by
  have key : ∀ br : Nat, br ≤ 16777216 → tween2u br br = br := by
    intro br h
    unfold tween2u
    rw [f32roundNat_small h, f32roundNat_even (by omega) (by omega),
      satU32_id (by omega)]
    omega
  exact ⟨key _ hl, key _ hr⟩

/-- Witness for `border_radius_tween_noop` on the default engine
(both radii 8). -/
theorem border_radius_tween_noop_witness :
    e0.eye_l.border_radius ≤ 16777216 ∧ e0.eye_r.border_radius ≤ 16777216
    ∧ ((RoboEyes.tween_border_radius e0).eye_l.border_radius
        = e0.eye_l.border_radius
      ∧ (RoboEyes.tween_border_radius e0).eye_r.border_radius
        = e0.eye_r.border_radius) :=
  ⟨by decide, by decide, border_radius_tween_noop e0 (by decide) (by decide)⟩

/-- C8 counterexample: with border radius 16777217 = 2^24 + 1 (not an `f32`
value) a render maps both radii to 16777216 — the "no-op" tween does change
the value, so the claim is false for arbitrary u32 radii. -/
theorem border_radius_large_not_noop :
    ((RoboEyes.drawStep (RoboEyes.set_border_radius e0 16777217 16777217) 0
        o0).map fun s => (s.eye_l.border_radius, s.eye_r.border_radius))
      = some (16777216, 16777216)
    ∧ (16777216 : Nat) ≠ 16777217 := by
  decide

/-- C9: `set_size(w, h)` overwrites both eyes' geometric size, both height
defaults and both height-next targets, while leaving the open/closed flags
(and the current heights) unchanged.  Consequently, on the concrete engine
`eClosed` — closed via `close()`, heights settled at 1, open flags false —
calling `set_size(36, 36)` and rendering once makes the heights grow from 1
to 18 (reopening) even though `open()` was never called. -/
theorem set_size_overwrites_height_targets :
    (∀ (e : RoboEyes) (w h : Nat),
      (RoboEyes.set_size e w h).eye_l.width = w
      ∧ (RoboEyes.set_size e w h).eye_r.width = w
      ∧ (RoboEyes.set_size e w h).eye_l.height = h
      ∧ (RoboEyes.set_size e w h).eye_r.height = h
      ∧ (RoboEyes.set_size e w h).eye_l_height_default = h
      ∧ (RoboEyes.set_size e w h).eye_r_height_default = h
      ∧ (RoboEyes.set_size e w h).eye_l_height_next = h
      ∧ (RoboEyes.set_size e w h).eye_r_height_next = h
      ∧ (RoboEyes.set_size e w h).eye_l_open = e.eye_l_open
      ∧ (RoboEyes.set_size e w h).eye_r_open = e.eye_r_open
      ∧ (RoboEyes.set_size e w h).eye_l_height_current = e.eye_l_height_current
      ∧ (RoboEyes.set_size e w h).eye_r_height_current = e.eye_r_height_current)
    ∧ (eClosed.eye_l_height_current = 1 ∧ eClosed.eye_r_height_current = 1
      ∧ eClosed.eye_l_height_next = 1 ∧ eClosed.eye_l_open = false
      ∧ eClosed.eye_r_open = false)
    ∧ ((RoboEyes.drawStep (RoboEyes.set_size eClosed 36 36) 30 o0).map fun s =>
        (s.eye_l_height_current, s.eye_r_height_current,
          s.eye_l_open, s.eye_r_open)) = some (18, 18, false, false) := by
  refine ⟨fun e w h =>
    ⟨rfl, rfl, rfl, rfl, rfl, rfl, rfl, rfl, rfl, rfl, rfl, rfl⟩,
    by decide, by decide⟩

/-- C10: retriggering a pulse animation restarts its window.  For every
engine state, a frame processed right after `anim_confused()` re-enters the
Start phase: it re-records the start time, forces the flicker amplitude
(20 horizontal / 5 vertical for laugh) and clears the phase toggle — and
concretely, a confused pulse started at t = 100 and retriggered at t = 300 is
still active at t = 799 (where the original window would already have ended
at 600) and ends exactly at t = 800 = 300 + 500. -/
theorem pulse_retrigger_restarts :
    (∀ (e : RoboEyes) (t : Nat),
      (RoboEyes.process_confused
          { e.anim_confused with current_time := t }).confused = true
      ∧ (RoboEyes.process_confused
          { e.anim_confused with current_time := t }).confused_toggle = false
      ∧ (RoboEyes.process_confused
          { e.anim_confused with current_time := t }).confused_timer = t
      ∧ (RoboEyes.process_confused
          { e.anim_confused with current_time := t }).h_flicker = true
      ∧ (RoboEyes.process_confused
          { e.anim_confused with current_time := t }).h_flicker_amplitude = 20)
    ∧ (∀ (e : RoboEyes) (t : Nat),
      (RoboEyes.process_laugh
          { e.anim_laugh with current_time := t }).laugh = true
      ∧ (RoboEyes.process_laugh
          { e.anim_laugh with current_time := t }).laugh_toggle = false
      ∧ (RoboEyes.process_laugh
          { e.anim_laugh with current_time := t }).laugh_timer = t
      ∧ (RoboEyes.process_laugh
          { e.anim_laugh with current_time := t }).v_flicker = true
      ∧ (RoboEyes.process_laugh
          { e.anim_laugh with current_time := t }).v_flicker_amplitude = 5)
    ∧ (let ec := RoboEyes.process_confused
          { eStab.anim_confused with current_time := 100 };
        let c1 := RoboEyes.process_confused
          { ec.anim_confused with current_time := 300 };
        (c1.confused_timer = 300 ∧ c1.h_flicker_amplitude = 20
            ∧ c1.confused_toggle = false ∧ c1.confused = true)
        ∧ ((RoboEyes.process_confused { c1 with current_time := 799 }).confused
              = true
          ∧ (RoboEyes.process_confused
              { c1 with current_time := 799 }).h_flicker = true
          ∧ (RoboEyes.process_confused
              { c1 with current_time := 799 }).confused_timer = 300)
        ∧ ((RoboEyes.process_confused { c1 with current_time := 800 }).confused
              = false
          ∧ (RoboEyes.process_confused
              { c1 with current_time := 800 }).h_flicker = false
          ∧ (RoboEyes.process_confused
              { c1 with current_time := 800 }).h_flicker_amplitude = 0
          ∧ (RoboEyes.process_confused
              { c1 with current_time := 800 }).confused_toggle = true))
    ∧ ((RoboEyes.drawStep eStab.anim_confused 42 o0).map fun s =>
        (s.confused, s.confused_toggle, s.confused_timer,
          s.h_flicker_amplitude)) = some (true, false, 42, 20) := by
  refine ⟨fun e t => ⟨rfl, rfl, rfl, rfl, rfl⟩,
    fun e t => ⟨rfl, rfl, rfl, rfl, rfl⟩, by decide, by decide⟩

end BotEyes
